import Mathlib

/-!
Shallow embedding of the security-notification worker
(`src/index.ts`, batch variant: `NotificationManager`).

External collaborators are modelled as explicit parameters:
* the upstream Cloudflare events API response is a `FetchResponse`
  (its `ok` flag, HTTP `status` and parsed `result` array);
* the `PROCESSED_EVENTS` KV namespace is an association list `KVStore`
  (later entries shadowed by earlier ones, matching overwrite-by-put);
* outbound HTTP delivery is a function `Net` from the target URL to a
  `SendOutcome` (success, non-success status, or a thrown network error);
* `Date.prototype.toLocaleString` is a parameter `locale : String → String`
  and the `new Date().toISOString()` stamp a parameter `nowTs : String`.

Side effects (outbound sends, console logs, KV puts) are recorded in a
trace of `Act` values, in program order.
-/

namespace SecNotif

/-- `SecurityEvent` from `src/index.ts`. -/
structure SecurityEvent where
  id : String
  timestamp : String
  action : String
  clientIP : String
  country : String
  method : String
  host : String
  uri : String
  userAgent : String
  ruleId : String
  ruleName : String
deriving DecidableEq, Repr, Inhabited

/-- `NotificationEndpoint.type` from `src/index.ts`. -/
inductive EndpointType where
  | webhook
  | email
  | slack
deriving DecidableEq, Repr

/-- `NotificationEndpoint` from `src/index.ts`; `url` and `email` are
optional fields in the TypeScript interface. -/
structure NotificationEndpoint where
  id : String
  name : String
  type : EndpointType
  url : Option String
  email : Option String
  enabled : Bool
  createdAt : String
deriving DecidableEq, Repr

/-- A raw record of the upstream API's `data.result` array, with the
fields `fetchSecurityEvents` reads.  `rule_message` is `none` when the
field is absent, `null` or `undefined` upstream. -/
structure RawEvent where
  ray_id : String
  occurred_at : String
  action : String
  client_ip : String
  country : String
  method : String
  host : String
  uri : String
  user_agent : String
  rule_id : String
  rule_message : Option String
deriving DecidableEq, Repr

/-- The upstream API response as seen by `fetchSecurityEvents`:
`response.ok`, `response.status`, and the parsed `data.result`. -/
structure FetchResponse where
  ok : Bool
  status : Nat
  result : List RawEvent
deriving DecidableEq, Repr

/-- One entry of the `PROCESSED_EVENTS` KV namespace: a key, the stored
string value, and the `expirationTtl` (seconds) given at put time. -/
structure KVEntry where
  key : String
  value : String
  ttl : Nat
deriving DecidableEq, Repr

/-- The `PROCESSED_EVENTS` KV namespace, as an association list. A put
prepends, and lookups take the first match, so a later put shadows an
older entry with the same key (overwrite semantics). -/
abbrev KVStore := List KVEntry

/-- `PROCESSED_EVENTS.get(key)`: the stored value, or `none`. -/
def kvGet (store : KVStore) (key : String) : Option String :=
  (store.find? (fun en => en.key = key)).map (fun en => en.value)

/-- Lookup of the full entry (value and ttl) for a key. -/
def kvGetEntry (store : KVStore) (key : String) : Option KVEntry :=
  store.find? (fun en => en.key = key)

/-- JavaScript truth test `!x` on a `string | null` value: `null`
(`none`) and the empty string are the falsy cases. -/
def jsFalsy (v : Option String) : Bool :=
  match v with
  | none => true
  | some s => s = ""

/-- Model of `JSON.stringify(event)` used as the marker value: a JSON
rendering of the event's fields (quote escaping elided). -/
def serializeEvent (e : SecurityEvent) : String :=
  "\x7b\"id\":\"" ++ e.id ++ "\",\"timestamp\":\"" ++ e.timestamp ++
    "\",\"action\":\"" ++ e.action ++ "\",\"clientIP\":\"" ++ e.clientIP ++
    "\",\"country\":\"" ++ e.country ++ "\",\"method\":\"" ++ e.method ++
    "\",\"host\":\"" ++ e.host ++ "\",\"uri\":\"" ++ e.uri ++
    "\",\"userAgent\":\"" ++ e.userAgent ++ "\",\"ruleId\":\"" ++ e.ruleId ++
    "\",\"ruleName\":\"" ++ e.ruleName ++ "\"\x7d"

/-- The outcome the network assigns to one outbound `fetch` POST:
a success response, a non-success HTTP status, or a thrown error. -/
inductive SendOutcome where
  | success
  | httpFailure (status : Nat)
  | networkError (msg : String)
deriving DecidableEq, Repr

/-- The outbound transport: the outcome of a POST to a given URL. -/
abbrev Net := String → SendOutcome

/-- A block of the Slack message built by `sendSlackBatch`, mirroring
the JS block objects (`type: 'header' | 'section' | 'divider' |
'context'`); a section carries its `text` and its `fields` texts. -/
inductive Block where
  | header (text : String)
  | sectionBlock (text : String) (fields : List String)
  | divider
  | context (text : String)
deriving DecidableEq, Repr

/-- The Slack message body: top-level `text` plus `blocks`. -/
structure SlackMessage where
  text : String
  blocks : List Block
deriving DecidableEq, Repr

/-- The JSON envelope `sendWebhookBatch` POSTs. -/
structure WebhookEnvelope where
  type : String
  events : List SecurityEvent
  count : Nat
  timestamp : String
deriving DecidableEq, Repr

/-- The JSON body of one outbound POST. -/
inductive Payload where
  | webhookBatch (body : WebhookEnvelope)
  | slackBatch (body : SlackMessage)
deriving DecidableEq, Repr

/-- One observable side effect, in program order.  A `send` records the
target URL, the event batch it was rendered from, and the POSTed body;
`markPut` records a `PROCESSED_EVENTS.put` with its key, value and
`expirationTtl`. -/
inductive Act where
  | send (url : String) (batch : List SecurityEvent) (payload : Payload)
  | logError (msg : String)
  | logInfo (msg : String)
  | markPut (key : String) (value : String) (ttl : Nat)
deriving DecidableEq, Repr

/-- The batch a send action was rendered from; `none` for non-sends. -/
def sendBatchOf (a : Act) : Option (List SecurityEvent) :=
  match a with
  | .send _ b _ => some b
  | _ => none

/-- Whether an action is an outbound send. -/
def isSendAct (a : Act) : Bool :=
  match a with
  | .send _ _ _ => true
  | _ => false

/-- Whether an action is a `PROCESSED_EVENTS.put`. -/
def isMarkPutAct (a : Act) : Bool :=
  match a with
  | .markPut _ _ _ => true
  | _ => false

/-- `allowedActions` from `fetchSecurityEvents`. -/
def allowedActions : List String := ["block", "challenge", "jschallenge"]

/-- JS `event.rule_message || 'Unknown'` on a `string`-or-absent field:
the falsy values (absent/null and the empty string) yield `"Unknown"`. -/
def ruleNameOf (m : Option String) : String :=
  match m with
  | none => "Unknown"
  | some s => if s = "" then "Unknown" else s

/-- The per-record mapping of `fetchSecurityEvents`. -/
def toSecurityEvent (e : RawEvent) : SecurityEvent :=
  { id := e.ray_id
    timestamp := e.occurred_at
    action := e.action
    clientIP := e.client_ip
    country := e.country
    method := e.method
    host := e.host
    uri := e.uri
    userAgent := e.user_agent
    ruleId := e.rule_id
    ruleName := ruleNameOf e.rule_message }

/-- The filter-then-map of `fetchSecurityEvents` over `data.result`. -/
def filterMapEvents (result : List RawEvent) : List SecurityEvent :=
  (result.filter (fun e => allowedActions.contains e.action)).map toSecurityEvent

/-- `fetchSecurityEvents` (request construction elided; the response is
the `resp` parameter): throws `Cloudflare API error: <status>` when the
response is not ok, otherwise filters to the allow-listed actions and
maps each surviving record to a `SecurityEvent`. -/
def fetchSecurityEvents (resp : FetchResponse) : Except String (List SecurityEvent) :=
  if resp.ok then
    Except.ok (filterMapEvents resp.result)
  else
    Except.error ("Cloudflare API error: " ++ toString resp.status)

/-- `sendWebhookBatch`: one POST of the batch envelope; throws
`Webhook batch failed: <status>` on a non-success status, and a thrown
network error propagates. -/
def sendWebhookBatch (net : Net) (nowTs : String) (url : String)
    (events : List SecurityEvent) : List Act × Except String Unit :=
  let body : WebhookEnvelope :=
    { type := "cloudflare_security_events_batch"
      events := events
      count := events.length
      timestamp := nowTs }
  let attempt := Act.send url events (Payload.webhookBatch body)
  match net url with
  | .success => ([attempt], Except.ok ())
  | .httpFailure status => ([attempt], Except.error ("Webhook batch failed: " ++ toString status))
  | .networkError msg => ([attempt], Except.error msg)

/-- `events.reduce` of `sendSlackBatch`: per-action counts in first-seen
order, mirroring a JS object's string-key insertion order. -/
def countActions : List (String × Nat) → String → List (String × Nat)
  | [], a => [(a, 1)]
  | (k, n) :: rest, a =>
      if k = a then (k, n + 1) :: rest else (k, n) :: countActions rest a

/-- `eventsSummary` of `sendSlackBatch`. -/
def eventsSummary (events : List SecurityEvent) : List (String × Nat) :=
  events.foldl (fun acc e => countActions acc e.action) []

/-- `summaryText` of `sendSlackBatch`. -/
def summaryText (events : List SecurityEvent) : String :=
  String.intercalate ", "
    ((eventsSummary events).map (fun p => p.1.toUpper ++ ": " ++ toString p.2))

/-- The two detail blocks pushed per displayed event (`divider` then a
`section`), with the running index of the `forEach`. -/
def detailBlocks (locale : String → String) : Nat → List SecurityEvent → List Block
  | _, [] => []
  | i, e :: rest =>
      Block.divider ::
      Block.sectionBlock
        ("*Event " ++ toString (i + 1) ++ ":* " ++ e.action ++ " from " ++
          e.clientIP ++ " (" ++ e.country ++ ")")
        ["*Host:* " ++ e.host, "*URI:* " ++ e.uri, "*Rule:* " ++ e.ruleName,
          "*Time:* " ++ locale e.timestamp] ::
      detailBlocks locale (i + 1) rest

/-- The header text of the Slack message (also its top-level `text`). -/
def slackHeaderText (events : List SecurityEvent) : String :=
  "🚨 " ++ toString events.length ++ " Security Events Detected"

/-- The `blocks` array built by `sendSlackBatch`: header, summary
section, up to 5 event details (each a divider plus a section), and a
trailing context note when more than 5 events are present.  The time
range reads the first and last batch timestamps (callers guarantee a
non-empty batch). -/
def slackBlocks (locale : String → String) (events : List SecurityEvent) : List Block :=
  Block.header (slackHeaderText events) ::
  Block.sectionBlock
    ("*Summary:* " ++ summaryText events ++ "\n*Time Range:* " ++
      locale ((events.headD default).timestamp) ++ " - " ++
      locale ((events.getLastD default).timestamp))
    [] ::
  (detailBlocks locale 0 (events.take 5) ++
    (if events.length > 5 then
      [Block.context ("... and " ++ toString (events.length - 5) ++ " more events")]
    else []))

/-- `sendSlackBatch`: one POST of the formatted message; throws
`Slack webhook batch failed: <status>` on a non-success status. -/
def sendSlackBatch (net : Net) (locale : String → String) (url : String)
    (events : List SecurityEvent) : List Act × Except String Unit :=
  let message : SlackMessage :=
    { text := slackHeaderText events, blocks := slackBlocks locale events }
  let attempt := Act.send url events (Payload.slackBatch message)
  match net url with
  | .success => ([attempt], Except.ok ())
  | .httpFailure status =>
      ([attempt], Except.error ("Slack webhook batch failed: " ++ toString status))
  | .networkError msg => ([attempt], Except.error msg)

/-- The `switch (endpoint.type)` body of one mapped promise in
`sendToEndpointsBatch`, before its `.catch`.  `endpoint.url!` is read
with an empty-string default (callers register a URL for webhook and
slack endpoints); the email case only logs. -/
def dispatchAttempt (net : Net) (locale : String → String) (nowTs : String)
    (ep : NotificationEndpoint) (events : List SecurityEvent) :
    List Act × Except String Unit :=
  match ep.type with
  | .webhook => sendWebhookBatch net nowTs (ep.url.getD "") events
  | .slack => sendSlackBatch net locale (ep.url.getD "") events
  | .email =>
      ([Act.logInfo ("Email notification to " ++ ep.email.getD "undefined" ++
        " for " ++ toString events.length ++ " events")], Except.ok ())

/-- One mapped promise of `sendToEndpointsBatch` including its
`.catch`: a failure is converted to a `console.error` naming the
endpoint, so the promise always resolves. -/
def dispatchCaught (net : Net) (locale : String → String) (nowTs : String)
    (ep : NotificationEndpoint) (events : List SecurityEvent) : List Act :=
  match ep.type with
  | .webhook =>
      match sendWebhookBatch net nowTs (ep.url.getD "") events with
      | (acts, .ok _) => acts
      | (acts, .error e) =>
          acts ++ [Act.logError ("Failed to send batch to webhook " ++ ep.name ++ ": " ++ e)]
  | .slack =>
      match sendSlackBatch net locale (ep.url.getD "") events with
      | (acts, .ok _) => acts
      | (acts, .error e) =>
          acts ++ [Act.logError ("Failed to send batch to Slack " ++ ep.name ++ ": " ++ e)]
  | .email =>
      ([Act.logInfo ("Email notification to " ++ ep.email.getD "undefined" ++
        " for " ++ toString events.length ++ " events")])

/-- `sendToEndpointsBatch`: no-op on an empty batch; otherwise each
endpoint's caught send, joined by `Promise.all` (which cannot reject,
every promise having a `.catch`). -/
def sendToEndpointsBatch (net : Net) (locale : String → String) (nowTs : String)
    (endpoints : List NotificationEndpoint) (events : List SecurityEvent) : List Act :=
  if events.length = 0 then []
  else (endpoints.map (fun ep => dispatchCaught net locale nowTs ep events)).flatten

/-- `sendNotificationsBatch`: the registry snapshot (`getEndpoints()`)
is the `endpoints` parameter; filters to `enabled` and batch-sends. -/
def sendNotificationsBatch (net : Net) (locale : String → String) (nowTs : String)
    (endpoints : List NotificationEndpoint) (events : List SecurityEvent) : List Act :=
  sendToEndpointsBatch net locale nowTs (endpoints.filter (fun ep => ep.enabled)) events

/-- The marker entry `checkAndNotifySecurityEvents` puts for one event:
key `event:<id>`, value the serialized event, 24-hour expiry. -/
def markEntry (e : SecurityEvent) : KVEntry :=
  { key := "event:" ++ e.id, value := serializeEvent e, ttl := 86400 }

/-- The `unprocessedEvents` collection loop: the order-preserving
subsequence of fetched events whose `event:<id>` lookup is falsy. -/
def unprocessedOf (store : KVStore) (events : List SecurityEvent) : List SecurityEvent :=
  events.filter (fun e => jsFalsy (kvGet store ("event:" ++ e.id)))

/-- The `try` body of `checkAndNotifySecurityEvents`: fetch, partition
against `PROCESSED_EVENTS`, and if any unprocessed events remain,
batch-send them and then mark each processed.  Returns the trace, the
updated store, and the body's exception outcome. -/
def checkAndNotifyBody (net : Net) (locale : String → String) (nowTs : String)
    (resp : FetchResponse) (endpoints : List NotificationEndpoint)
    (store : KVStore) : List Act × KVStore × Except String Unit :=
  match fetchSecurityEvents resp with
  | .error e => ([], store, Except.error e)
  | .ok events =>
      let unprocessedEvents := unprocessedOf store events
      if unprocessedEvents.length > 0 then
        let sendActs := sendNotificationsBatch net locale nowTs endpoints unprocessedEvents
        let putActs := unprocessedEvents.map
          (fun e => Act.markPut ("event:" ++ e.id) (serializeEvent e) 86400)
        let store' := unprocessedEvents.foldl (fun s e => markEntry e :: s) store
        (sendActs ++ putActs, store', Except.ok ())
      else
        ([], store, Except.ok ())

/-- `checkAndNotifySecurityEvents`: the `try` body with its top-level
`catch`, which logs any error; the method itself always resolves. -/
def checkAndNotifySecurityEvents (net : Net) (locale : String → String) (nowTs : String)
    (resp : FetchResponse) (endpoints : List NotificationEndpoint)
    (store : KVStore) : List Act × KVStore :=
  match checkAndNotifyBody net locale nowTs resp endpoints store with
  | (acts, store', .ok _) => (acts, store')
  | (acts, store', .error e) =>
      (acts ++ [Act.logError ("Error checking security events: " ++ e)], store')

/-- The `console.error` label of the per-endpoint `.catch` in
`sendToEndpointsBatch`, naming the endpoint. -/
def catchLabel (ep : NotificationEndpoint) : String :=
  match ep.type with
  | .webhook => "Failed to send batch to webhook " ++ ep.name
  | .slack => "Failed to send batch to Slack " ++ ep.name
  | .email => ""

/-- Whether a block is one of the per-event detail sections (the only
sections with a non-empty `fields` array). -/
def isDetailBlock (b : Block) : Bool :=
  match b with
  | .sectionBlock _ fields => !fields.isEmpty
  | _ => false

/-- The text of a context block, `none` otherwise. -/
def contextTextOf (b : Block) : Option String :=
  match b with
  | .context t => some t
  | _ => none


/-- Sample upstream record with an allow-listed action (`block`). -/
def rawBlock : RawEvent :=
  { ray_id := "ray1", occurred_at := "2024-01-01T00:00:00Z", action := "block",
    client_ip := "203.0.113.5", country := "JP", method := "GET",
    host := "example.com", uri := "/admin", user_agent := "curl/8.0",
    rule_id := "100015", rule_message := some "SQL injection" }

/-- Sample upstream record with a non-allow-listed action (`allow`). -/
def rawAllow : RawEvent :=
  { ray_id := "ray2", occurred_at := "2024-01-01T00:01:00Z", action := "allow",
    client_ip := "203.0.113.6", country := "US", method := "POST",
    host := "example.com", uri := "/login", user_agent := "Mozilla/5.0",
    rule_id := "100016", rule_message := some "rate limit" }

/-- Sample upstream record whose rule message is absent. -/
def rawNoMsg : RawEvent :=
  { ray_id := "ray3", occurred_at := "2024-01-01T00:02:00Z", action := "challenge",
    client_ip := "203.0.113.7", country := "DE", method := "GET",
    host := "example.com", uri := "/", user_agent := "bot/1.0",
    rule_id := "100017", rule_message := none }

/-- Sample upstream record whose rule message is the empty string. -/
def rawEmptyMsg : RawEvent :=
  { ray_id := "ray4", occurred_at := "2024-01-01T00:03:00Z", action := "block",
    client_ip := "203.0.113.8", country := "FR", method := "GET",
    host := "example.com", uri := "/x", user_agent := "bot/2.0",
    rule_id := "100018", rule_message := some "" }

/-- A successful sample upstream response. -/
def respSample : FetchResponse :=
  { ok := true, status := 200, result := [rawBlock, rawAllow, rawNoMsg] }

/-- A failed sample upstream response. -/
def respFail : FetchResponse := { ok := false, status := 500, result := [] }

/-- The security event mapped from `rawBlock`. -/
def sampleEvent : SecurityEvent := toSecurityEvent rawBlock

/-- The security event mapped from `rawNoMsg`. -/
def sampleEvent2 : SecurityEvent := toSecurityEvent rawNoMsg

/-- A sample enabled webhook endpoint. -/
def webhookEp : NotificationEndpoint :=
  { id := "ep1", name := "ops-webhook", type := EndpointType.webhook,
    url := some "https://hooks.example.com/w", email := none,
    enabled := true, createdAt := "2024-01-01T00:00:00Z" }

/-- A sample enabled slack endpoint. -/
def slackEp : NotificationEndpoint :=
  { id := "ep2", name := "ops-slack", type := EndpointType.slack,
    url := some "https://hooks.slack.example/x", email := none,
    enabled := true, createdAt := "2024-01-01T00:00:00Z" }

/-- A sample disabled endpoint. -/
def disabledEp : NotificationEndpoint :=
  { id := "ep3", name := "old-webhook", type := EndpointType.webhook,
    url := some "https://hooks.example.com/old", email := none,
    enabled := false, createdAt := "2023-12-01T00:00:00Z" }

/-- A sample registry snapshot. -/
def sampleEndpoints : List NotificationEndpoint := [webhookEp, slackEp, disabledEp]

/-- A network where every POST succeeds. -/
def netAllOk : Net := fun _ => SendOutcome.success

/-- A network where the POST to the sample webhook endpoint throws. -/
def netWebhookDown : Net := fun u =>
  if u = "https://hooks.example.com/w" then SendOutcome.networkError "fetch failed"
  else SendOutcome.success

/-- Identity stand-in for `toLocaleString`. -/
def idLocale : String → String := fun s => s

/-- A sample store already holding the marker for `sampleEvent`. -/
def sampleStore : KVStore := [markEntry sampleEvent]

/-- A batch of seven distinct events, for the over-five slack case. -/
def batch7 : List SecurityEvent :=
  (List.range 7).map (fun i => { sampleEvent with id := "ray-b" ++ toString i })

lemma filter_map_eq_filterMap {α β : Type} (p : α → Bool) (f : α → β) :
    ∀ l : List α,
      (l.filter p).map f = l.filterMap (fun x => if p x then some (f x) else none)
  | [] => rfl
  | x :: xs => by
      by_cases h : p x <;>
        simp [List.filter_cons, List.filterMap_cons, h, filter_map_eq_filterMap p f xs]

lemma foldl_cons_map {α β : Type} (g : α → β) :
    ∀ (l : List α) (s : List β),
      l.foldl (fun acc a => g a :: acc) s = (l.map g).reverse ++ s
  | [], _ => rfl
  | x :: xs, s => by
      simp [foldl_cons_map g xs (g x :: s)]

lemma jsFalsy_kvGet (store : KVStore) (hwf : ∀ en ∈ store, en.value ≠ "")
    (k : String) : jsFalsy (kvGet store k) = (kvGet store k).isNone := by
  unfold kvGet
  cases hf : store.find? (fun en => en.key = k) with
  | none => rfl
  | some en =>
      have hv : en.value ≠ "" := hwf en (List.mem_of_find?_eq_some hf)
      simp [jsFalsy, hv]

lemma unprocessedOf_wf (store : KVStore) (hwf : ∀ en ∈ store, en.value ≠ "")
    (l : List SecurityEvent) :
    unprocessedOf store l
      = l.filter (fun e => (kvGet store ("event:" ++ e.id)).isNone) := by
  unfold unprocessedOf
  apply List.filter_congr
  intro e _
  exact jsFalsy_kvGet store hwf _

lemma checkAndNotify_ok (net : Net) (locale : String → String) (nowTs : String)
    (resp : FetchResponse) (endpoints : List NotificationEndpoint) (store : KVStore)
    (hok : resp.ok = true) :
    checkAndNotifySecurityEvents net locale nowTs resp endpoints store =
      if (unprocessedOf store (filterMapEvents resp.result)).length > 0 then
        (sendNotificationsBatch net locale nowTs endpoints
            (unprocessedOf store (filterMapEvents resp.result)) ++
          (unprocessedOf store (filterMapEvents resp.result)).map
            (fun e => Act.markPut ("event:" ++ e.id) (serializeEvent e) 86400),
         (unprocessedOf store (filterMapEvents resp.result)).foldl
            (fun s e => markEntry e :: s) store)
      else ([], store) := by
  unfold checkAndNotifySecurityEvents checkAndNotifyBody fetchSecurityEvents
  rw [hok]
  by_cases h : (unprocessedOf store (filterMapEvents resp.result)).length > 0 <;>
    simp [h]

lemma dispatchCaught_shape (net : Net) (locale : String → String) (nowTs : String)
    (ep : NotificationEndpoint) (events : List SecurityEvent) :
    ∀ a ∈ dispatchCaught net locale nowTs ep events,
      (sendBatchOf a = none ∨ sendBatchOf a = some events) ∧ isMarkPutAct a = false := by
  intro a ha
  cases htype : ep.type <;>
    simp only [dispatchCaught, htype] at ha
  case webhook =>
    cases hnet : net (ep.url.getD "") <;>
      simp [sendWebhookBatch, hnet] at ha <;>
      rcases ha with rfl | rfl <;>
      simp [sendBatchOf, isMarkPutAct]
  case slack =>
    cases hnet : net (ep.url.getD "") <;>
      simp [sendSlackBatch, hnet] at ha <;>
      rcases ha with rfl | rfl <;>
      simp [sendBatchOf, isMarkPutAct]
  case email =>
    simp at ha
    subst ha
    simp [sendBatchOf, isMarkPutAct]

lemma sendToEndpointsBatch_shape (net : Net) (locale : String → String)
    (nowTs : String) (endpoints : List NotificationEndpoint)
    (events : List SecurityEvent) :
    ∀ a ∈ sendToEndpointsBatch net locale nowTs endpoints events,
      (sendBatchOf a = none ∨ sendBatchOf a = some events) ∧ isMarkPutAct a = false := by
  intro a ha
  unfold sendToEndpointsBatch at ha
  by_cases h : events.length = 0
  · simp [h] at ha
  · rw [if_neg h] at ha
    rcases List.mem_flatten.mp ha with ⟨l, hl, hal⟩
    rcases List.mem_map.mp hl with ⟨ep, _, rfl⟩
    exact dispatchCaught_shape net locale nowTs ep events a hal

lemma sendNotificationsBatch_shape (net : Net) (locale : String → String)
    (nowTs : String) (endpoints : List NotificationEndpoint)
    (events : List SecurityEvent) :
    ∀ a ∈ sendNotificationsBatch net locale nowTs endpoints events,
      (sendBatchOf a = none ∨ sendBatchOf a = some events) ∧ isMarkPutAct a = false := by
  unfold sendNotificationsBatch
  exact sendToEndpointsBatch_shape net locale nowTs _ events

/-- C7: on a successful fetch, the Event Fetcher returns exactly the
upstream records whose action is allow-listed, in upstream order, each
mapped field-by-field, with ruleName the upstream rule message or
"Unknown" when that field is missing. -/
theorem fetchSecurityEvents_filter_map (resp : FetchResponse) (hok : resp.ok = true) :
    fetchSecurityEvents resp =
      Except.ok (resp.result.filterMap
        (fun r => if allowedActions.contains r.action then some (toSecurityEvent r)
          else none)) ∧
    ∀ r : RawEvent,
      (toSecurityEvent r).id = r.ray_id ∧
      (toSecurityEvent r).timestamp = r.occurred_at ∧
      (toSecurityEvent r).action = r.action ∧
      (toSecurityEvent r).clientIP = r.client_ip ∧
      (toSecurityEvent r).country = r.country ∧
      (toSecurityEvent r).method = r.method ∧
      (toSecurityEvent r).host = r.host ∧
      (toSecurityEvent r).uri = r.uri ∧
      (toSecurityEvent r).userAgent = r.user_agent ∧
      (toSecurityEvent r).ruleId = r.rule_id ∧
      (r.rule_message = none → (toSecurityEvent r).ruleName = "Unknown") ∧
      (∀ m : String, r.rule_message = some m → m ≠ "" →
        (toSecurityEvent r).ruleName = m) := by
  constructor
  · unfold fetchSecurityEvents
    rw [hok]
    simp [filterMapEvents, filter_map_eq_filterMap]
  · intro r
    refine ⟨rfl, rfl, rfl, rfl, rfl, rfl, rfl, rfl, rfl, rfl, ?_, ?_⟩
    · intro h
      simp [toSecurityEvent, ruleNameOf, h]
    · intro m hm hne
      simp [toSecurityEvent, ruleNameOf, hm, hne]

/-- Witness for C7 at the sample response. -/
theorem fetchSecurityEvents_filter_map_witness :
    respSample.ok = true ∧
    (fetchSecurityEvents respSample =
      Except.ok (respSample.result.filterMap
        (fun r => if allowedActions.contains r.action then some (toSecurityEvent r)
          else none)) ∧
    ∀ r : RawEvent,
      (toSecurityEvent r).id = r.ray_id ∧
      (toSecurityEvent r).timestamp = r.occurred_at ∧
      (toSecurityEvent r).action = r.action ∧
      (toSecurityEvent r).clientIP = r.client_ip ∧
      (toSecurityEvent r).country = r.country ∧
      (toSecurityEvent r).method = r.method ∧
      (toSecurityEvent r).host = r.host ∧
      (toSecurityEvent r).uri = r.uri ∧
      (toSecurityEvent r).userAgent = r.user_agent ∧
      (toSecurityEvent r).ruleId = r.rule_id ∧
      (r.rule_message = none → (toSecurityEvent r).ruleName = "Unknown") ∧
      (∀ m : String, r.rule_message = some m → m ≠ "" →
        (toSecurityEvent r).ruleName = m)) :=
  ⟨rfl, fetchSecurityEvents_filter_map respSample rfl⟩

/-- C10: a rule message that is present but falsy (the empty string),
like an absent one, maps to ruleName "Unknown"; any truthy message is
kept as is. -/
theorem ruleName_falsy_unknown (r : RawEvent)
    (h : r.rule_message = some "" ∨ r.rule_message = none) :
    (toSecurityEvent r).ruleName = "Unknown" ∧
    ∀ (r' : RawEvent) (m : String), r'.rule_message = some m → m ≠ "" →
      (toSecurityEvent r').ruleName = m := by
  constructor
  · rcases h with h | h <;> simp [toSecurityEvent, ruleNameOf, h]
  · intro r' m hm hne
    simp [toSecurityEvent, ruleNameOf, hm, hne]

/-- Witness for C10 at the empty-message sample record. -/
theorem ruleName_falsy_unknown_witness :
    (rawEmptyMsg.rule_message = some "" ∨ rawEmptyMsg.rule_message = none) ∧
    ((toSecurityEvent rawEmptyMsg).ruleName = "Unknown" ∧
    ∀ (r' : RawEvent) (m : String), r'.rule_message = some m → m ≠ "" →
      (toSecurityEvent r').ruleName = m) :=
  ⟨Or.inl rfl, ruleName_falsy_unknown rawEmptyMsg (Or.inl rfl)⟩

/-- C8: a disabled endpoint contributes nothing to a dispatch (removing
it leaves the trace unchanged), and only enabled endpoints are passed
to the batch sender. -/
theorem sendNotificationsBatch_disabled (net : Net) (locale : String → String)
    (nowTs : String) (events : List SecurityEvent)
    (endpoints l1 l2 : List NotificationEndpoint) (ep : NotificationEndpoint)
    (hdis : ep.enabled = false) :
    sendNotificationsBatch net locale nowTs (l1 ++ ep :: l2) events =
      sendNotificationsBatch net locale nowTs (l1 ++ l2) events ∧
    sendNotificationsBatch net locale nowTs endpoints events =
      sendToEndpointsBatch net locale nowTs
        (endpoints.filter (fun e => e.enabled)) events := by
  constructor
  · unfold sendNotificationsBatch
    simp [List.filter_append, List.filter_cons, hdis]
  · rfl

/-- Witness for C8 at the sample endpoints and disabled endpoint. -/
theorem sendNotificationsBatch_disabled_witness :
    disabledEp.enabled = false ∧
    (sendNotificationsBatch netAllOk idLocale "T" ([webhookEp] ++ disabledEp :: [slackEp])
        [sampleEvent2] =
      sendNotificationsBatch netAllOk idLocale "T" ([webhookEp] ++ [slackEp])
        [sampleEvent2] ∧
    sendNotificationsBatch netAllOk idLocale "T" sampleEndpoints [sampleEvent2] =
      sendToEndpointsBatch netAllOk idLocale "T"
        (sampleEndpoints.filter (fun e => e.enabled)) [sampleEvent2]) :=
  ⟨rfl, sendNotificationsBatch_disabled netAllOk idLocale "T" [sampleEvent2]
    sampleEndpoints [webhookEp] [slackEp] disabledEp rfl⟩

/-- Counterexample for C6: the single POST's envelope `type` field is
the string "cloudflare_security_events_batch", not "batch". -/
theorem sendWebhookBatch_type_cex :
    (sendWebhookBatch netAllOk "2024-01-01T00:05:00.000Z"
        "https://hooks.example.com/w" [sampleEvent]).1 =
      [Act.send "https://hooks.example.com/w" [sampleEvent]
        (Payload.webhookBatch
          { type := "cloudflare_security_events_batch", events := [sampleEvent],
            count := 1, timestamp := "2024-01-01T00:05:00.000Z" })] ∧
    ("cloudflare_security_events_batch" : String) ≠ "batch" :=
  ⟨rfl, by decide⟩

/-- C6 (amended): for every non-empty batch and enabled webhook-type
endpoint, exactly one POST is issued to its URL, whose JSON body is the
envelope with `type` equal to "cloudflare_security_events_batch", the
full batch as `events`, its length as `count`, and a timestamp. -/
theorem sendWebhookBatch_envelope (net : Net) (locale : String → String)
    (nowTs : String) (endpoints : List NotificationEndpoint)
    (ep : NotificationEndpoint) (u : String) (events : List SecurityEvent)
    (hmem : ep ∈ endpoints) (hen : ep.enabled = true)
    (ht : ep.type = EndpointType.webhook) (hu : ep.url = some u)
    (hne : events ≠ []) :
    (dispatchCaught net locale nowTs ep events).countP isSendAct = 1 ∧
    Act.send u events (Payload.webhookBatch
      { type := "cloudflare_security_events_batch", events := events,
        count := events.length, timestamp := nowTs }) ∈
      dispatchCaught net locale nowTs ep events ∧
    Act.send u events (Payload.webhookBatch
      { type := "cloudflare_security_events_batch", events := events,
        count := events.length, timestamp := nowTs }) ∈
      sendNotificationsBatch net locale nowTs endpoints events := by
  have hurl : ep.url.getD "" = u := by rw [hu]; rfl
  have hone : (dispatchCaught net locale nowTs ep events).countP isSendAct = 1 := by
    simp only [dispatchCaught, ht, hurl]
    cases hnet : net u <;>
      simp [sendWebhookBatch, hnet, List.countP_cons, isSendAct]
  have hmem2 : Act.send u events (Payload.webhookBatch
      { type := "cloudflare_security_events_batch", events := events,
        count := events.length, timestamp := nowTs }) ∈
      dispatchCaught net locale nowTs ep events := by
    simp only [dispatchCaught, ht, hurl]
    cases hnet : net u <;> simp [sendWebhookBatch, hnet]
  refine ⟨hone, hmem2, ?_⟩
  unfold sendNotificationsBatch sendToEndpointsBatch
  rw [if_neg (by simpa [List.length_eq_zero] using hne)]
  exact List.mem_flatten.mpr
    ⟨dispatchCaught net locale nowTs ep events,
      List.mem_map_of_mem _ (List.mem_filter.mpr ⟨hmem, by simp [hen]⟩), hmem2⟩

/-- Witness for the amended C6 at the sample webhook endpoint. -/
theorem sendWebhookBatch_envelope_witness :
    webhookEp ∈ sampleEndpoints ∧ webhookEp.enabled = true ∧
    webhookEp.type = EndpointType.webhook ∧
    webhookEp.url = some "https://hooks.example.com/w" ∧
    ([sampleEvent2] : List SecurityEvent) ≠ [] ∧
    ((dispatchCaught netAllOk idLocale "T" webhookEp [sampleEvent2]).countP isSendAct = 1 ∧
    Act.send "https://hooks.example.com/w" [sampleEvent2] (Payload.webhookBatch
      { type := "cloudflare_security_events_batch", events := [sampleEvent2],
        count := [sampleEvent2].length, timestamp := "T" }) ∈
      dispatchCaught netAllOk idLocale "T" webhookEp [sampleEvent2] ∧
    Act.send "https://hooks.example.com/w" [sampleEvent2] (Payload.webhookBatch
      { type := "cloudflare_security_events_batch", events := [sampleEvent2],
        count := [sampleEvent2].length, timestamp := "T" }) ∈
      sendNotificationsBatch netAllOk idLocale "T" sampleEndpoints [sampleEvent2]) :=
  ⟨by decide, rfl, rfl, rfl, by decide,
    sendWebhookBatch_envelope netAllOk idLocale "T" sampleEndpoints webhookEp
      "https://hooks.example.com/w" [sampleEvent2] (by decide) rfl rfl rfl (by decide)⟩

lemma countP_detailBlocks (locale : String → String) :
    ∀ (i : Nat) (l : List SecurityEvent),
      (detailBlocks locale i l).countP isDetailBlock = l.length
  | _, [] => rfl
  | i, e :: rest => by
      simp [detailBlocks, List.countP_cons, isDetailBlock,
        countP_detailBlocks locale (i + 1) rest]

lemma contextTexts_detailBlocks (locale : String → String) :
    ∀ (i : Nat) (l : List SecurityEvent),
      (detailBlocks locale i l).filterMap contextTextOf = []
  | _, [] => rfl
  | i, e :: rest => by
      simp [detailBlocks, List.filterMap_cons, contextTextOf,
        contextTexts_detailBlocks locale (i + 1) rest]

/-- C5: the slack message is a single POST whose blocks contain exactly
`min N 5` per-event detail sections, a trailing "... and N - 5 more
events" context note exactly when N > 5, and a header block stating the
total count N. -/
theorem sendSlackBatch_rendering (net : Net) (locale : String → String)
    (url : String) (events : List SecurityEvent) (hne : events ≠ []) :
    (sendSlackBatch net locale url events).1 =
      [Act.send url events (Payload.slackBatch
        { text := slackHeaderText events, blocks := slackBlocks locale events })] ∧
    (5 < events.length → (slackBlocks locale events).countP isDetailBlock = 5) ∧
    (events.length ≤ 5 →
      (slackBlocks locale events).countP isDetailBlock = events.length) ∧
    (5 < events.length →
      (slackBlocks locale events).filterMap contextTextOf =
        ["... and " ++ toString (events.length - 5) ++ " more events"]) ∧
    (events.length ≤ 5 → (slackBlocks locale events).filterMap contextTextOf = []) ∧
    (slackBlocks locale events).head? =
      some (Block.header ("🚨 " ++ toString events.length ++
        " Security Events Detected")) := by
  refine ⟨?_, ?_, ?_, ?_, ?_, rfl⟩
  · unfold sendSlackBatch
    cases net url <;> rfl
  · intro h
    have h5 : events.length > 5 := h
    simp [slackBlocks, List.countP_cons, List.countP_append, isDetailBlock,
      countP_detailBlocks, List.length_take, h5, Nat.min_eq_left (Nat.le_of_lt h)]
  · intro h
    by_cases h5 : events.length > 5
    · omega
    · simp [slackBlocks, List.countP_cons, List.countP_append, isDetailBlock,
        countP_detailBlocks, List.length_take, h5, Nat.min_eq_right h]
  · intro h
    have h5 : events.length > 5 := h
    simp [slackBlocks, List.filterMap_cons, List.filterMap_append, contextTextOf,
      contextTexts_detailBlocks, h5]
  · intro h
    have h5 : ¬ events.length > 5 := by omega
    simp [slackBlocks, List.filterMap_cons, List.filterMap_append, contextTextOf,
      contextTexts_detailBlocks, h5]

/-- Witness for C5 at a seven-event batch. -/
theorem sendSlackBatch_rendering_witness :
    (batch7 : List SecurityEvent) ≠ [] ∧
    ((sendSlackBatch netAllOk idLocale "https://hooks.slack.example/x" batch7).1 =
      [Act.send "https://hooks.slack.example/x" batch7 (Payload.slackBatch
        { text := slackHeaderText batch7, blocks := slackBlocks idLocale batch7 })] ∧
    (5 < batch7.length → (slackBlocks idLocale batch7).countP isDetailBlock = 5) ∧
    (batch7.length ≤ 5 →
      (slackBlocks idLocale batch7).countP isDetailBlock = batch7.length) ∧
    (5 < batch7.length →
      (slackBlocks idLocale batch7).filterMap contextTextOf =
        ["... and " ++ toString (batch7.length - 5) ++ " more events"]) ∧
    (batch7.length ≤ 5 → (slackBlocks idLocale batch7).filterMap contextTextOf = []) ∧
    (slackBlocks idLocale batch7).head? =
      some (Block.header ("🚨 " ++ toString batch7.length ++
        " Security Events Detected"))) :=
  ⟨by decide,
    sendSlackBatch_rendering netAllOk idLocale "https://hooks.slack.example/x" batch7
      (by decide)⟩

/-- C3: a dispatch decomposes into per-endpoint segments; each segment
depends only on the network's behaviour at that endpoint's own URL (so
one endpoint's failure cannot block another's send); every non-email
endpoint gets a send attempt whatever the network does; and any
per-endpoint error is converted into a `console.error` naming the
endpoint rather than propagating. -/
theorem sendToEndpointsBatch_isolation (net : Net) (locale : String → String)
    (nowTs : String) (endpoints : List NotificationEndpoint)
    (events : List SecurityEvent) (hne : events ≠ []) :
    sendToEndpointsBatch net locale nowTs endpoints events =
      (endpoints.map (fun ep => dispatchCaught net locale nowTs ep events)).flatten ∧
    (∀ ep ∈ endpoints, ∀ net1 net2 : Net,
      net1 (ep.url.getD "") = net2 (ep.url.getD "") →
      dispatchCaught net1 locale nowTs ep events =
        dispatchCaught net2 locale nowTs ep events) ∧
    (∀ ep ∈ endpoints, ep.type ≠ EndpointType.email →
      ∃ p : Payload, Act.send (ep.url.getD "") events p ∈
        sendToEndpointsBatch net locale nowTs endpoints events) ∧
    (∀ ep ∈ endpoints, ∀ e : String,
      (dispatchAttempt net locale nowTs ep events).2 = Except.error e →
      dispatchCaught net locale nowTs ep events =
        (dispatchAttempt net locale nowTs ep events).1 ++
          [Act.logError (catchLabel ep ++ ": " ++ e)]) := by
  have hflat : sendToEndpointsBatch net locale nowTs endpoints events =
      (endpoints.map (fun ep => dispatchCaught net locale nowTs ep events)).flatten := by
    unfold sendToEndpointsBatch
    rw [if_neg (by simpa [List.length_eq_zero] using hne)]
  refine ⟨hflat, ?_, ?_, ?_⟩
  · intro ep _ net1 net2 hagree
    cases ht : ep.type <;> simp only [dispatchCaught, ht]
    · unfold sendWebhookBatch
      rw [hagree]
    · unfold sendSlackBatch
      rw [hagree]
  · intro ep hep hnotmail
    have hattempt : ∃ p : Payload, Act.send (ep.url.getD "") events p ∈
        dispatchCaught net locale nowTs ep events := by
      cases ht : ep.type
      case webhook =>
        refine ⟨Payload.webhookBatch
          { type := "cloudflare_security_events_batch", events := events,
            count := events.length, timestamp := nowTs }, ?_⟩
        simp only [dispatchCaught, ht]
        cases hnet : net (ep.url.getD "") <;> simp [sendWebhookBatch, hnet]
      case email => exact absurd ht hnotmail
      case slack =>
        refine ⟨Payload.slackBatch
          { text := slackHeaderText events, blocks := slackBlocks locale events }, ?_⟩
        simp only [dispatchCaught, ht]
        cases hnet : net (ep.url.getD "") <;> simp [sendSlackBatch, hnet]
    rcases hattempt with ⟨p, hp⟩
    refine ⟨p, ?_⟩
    rw [hflat]
    exact List.mem_flatten.mpr
      ⟨dispatchCaught net locale nowTs ep events, List.mem_map_of_mem _ hep, hp⟩
  · intro ep _ e herr
    cases ht : ep.type
    case webhook =>
      simp only [dispatchAttempt, ht] at herr
      simp only [dispatchCaught, dispatchAttempt, catchLabel, ht]
      cases hnet : net (ep.url.getD "") <;>
        simp [sendWebhookBatch, hnet] at herr ⊢ <;>
        simp [herr]
    case email =>
      simp only [dispatchAttempt, ht] at herr
      simp at herr
    case slack =>
      simp only [dispatchAttempt, ht] at herr
      simp only [dispatchCaught, dispatchAttempt, catchLabel, ht]
      cases hnet : net (ep.url.getD "") <;>
        simp [sendSlackBatch, hnet] at herr ⊢ <;>
        simp [herr]

/-- Witness for C3 at the sample endpoints with the webhook down. -/
theorem sendToEndpointsBatch_isolation_witness :
    ([sampleEvent2] : List SecurityEvent) ≠ [] ∧
    (sendToEndpointsBatch netWebhookDown idLocale "T" sampleEndpoints [sampleEvent2] =
      (sampleEndpoints.map
        (fun ep => dispatchCaught netWebhookDown idLocale "T" ep [sampleEvent2])).flatten ∧
    (∀ ep ∈ sampleEndpoints, ∀ net1 net2 : Net,
      net1 (ep.url.getD "") = net2 (ep.url.getD "") →
      dispatchCaught net1 idLocale "T" ep [sampleEvent2] =
        dispatchCaught net2 idLocale "T" ep [sampleEvent2]) ∧
    (∀ ep ∈ sampleEndpoints, ep.type ≠ EndpointType.email →
      ∃ p : Payload, Act.send (ep.url.getD "") [sampleEvent2] p ∈
        sendToEndpointsBatch netWebhookDown idLocale "T" sampleEndpoints [sampleEvent2]) ∧
    (∀ ep ∈ sampleEndpoints, ∀ e : String,
      (dispatchAttempt netWebhookDown idLocale "T" ep [sampleEvent2]).2 = Except.error e →
      dispatchCaught netWebhookDown idLocale "T" ep [sampleEvent2] =
        (dispatchAttempt netWebhookDown idLocale "T" ep [sampleEvent2]).1 ++
          [Act.logError (catchLabel ep ++ ": " ++ e)])) :=
  ⟨by decide,
    sendToEndpointsBatch_isolation netWebhookDown idLocale "T" sampleEndpoints
      [sampleEvent2] (by decide)⟩

lemma find?_append_of_eq_none {α : Type} (p : α → Bool) :
    ∀ (l1 l2 : List α), l1.find? p = none → (l1 ++ l2).find? p = l2.find? p
  | [], _, _ => rfl
  | x :: xs, l2, h => by
      cases hx : p x with
      | true =>
          rw [List.find?_cons_of_pos _ hx] at h
          cases h
      | false =>
          have hx' : ¬ p x = true := by simp [hx]
          rw [List.find?_cons_of_neg _ hx'] at h
          rw [List.cons_append, List.find?_cons_of_neg _ hx']
          exact find?_append_of_eq_none p xs l2 h

/-- C1: on a successful fetch, every outbound send of the invocation is
for exactly the order-preserving subsequence of fetched events without a
processed-event marker, and a fetched event with a marker is not in that
batch. -/
theorem checkAndNotify_dedup (net : Net) (locale : String → String) (nowTs : String)
    (resp : FetchResponse) (endpoints : List NotificationEndpoint) (store : KVStore)
    (hok : resp.ok = true) (hwf : ∀ en ∈ store, en.value ≠ "") :
    (∀ a ∈ (checkAndNotifySecurityEvents net locale nowTs resp endpoints store).1,
      sendBatchOf a = none ∨
      sendBatchOf a = some ((filterMapEvents resp.result).filter
        (fun e => (kvGet store ("event:" ++ e.id)).isNone))) ∧
    (∀ e ∈ filterMapEvents resp.result,
      kvGet store ("event:" ++ e.id) ≠ none →
      e ∉ (filterMapEvents resp.result).filter
        (fun x => (kvGet store ("event:" ++ x.id)).isNone)) := by
  have hu := unprocessedOf_wf store hwf (filterMapEvents resp.result)
  constructor
  · intro a ha
    rw [checkAndNotify_ok net locale nowTs resp endpoints store hok] at ha
    by_cases h : (unprocessedOf store (filterMapEvents resp.result)).length > 0
    · rw [if_pos h] at ha
      rcases List.mem_append.mp ha with ha | ha
      · rcases (sendNotificationsBatch_shape net locale nowTs endpoints _ a ha).1 with
          h1 | h1
        · exact Or.inl h1
        · right
          rw [h1, hu]
      · rcases List.mem_map.mp ha with ⟨e, _, rfl⟩
        exact Or.inl rfl
    · rw [if_neg h] at ha
      simp at ha
  · intro e _ hmark hmem
    exact hmark (Option.isNone_iff_eq_none.mp (List.mem_filter.mp hmem).2)

/-- Witness for C1 at the sample store holding one marker. -/
theorem checkAndNotify_dedup_witness :
    respSample.ok = true ∧ (∀ en ∈ sampleStore, en.value ≠ "") ∧
    ((∀ a ∈ (checkAndNotifySecurityEvents netWebhookDown idLocale "T" respSample
        sampleEndpoints sampleStore).1,
      sendBatchOf a = none ∨
      sendBatchOf a = some ((filterMapEvents respSample.result).filter
        (fun e => (kvGet sampleStore ("event:" ++ e.id)).isNone))) ∧
    (∀ e ∈ filterMapEvents respSample.result,
      kvGet sampleStore ("event:" ++ e.id) ≠ none →
      e ∉ (filterMapEvents respSample.result).filter
        (fun x => (kvGet sampleStore ("event:" ++ x.id)).isNone))) :=
  ⟨rfl, by decide,
    checkAndNotify_dedup netWebhookDown idLocale "T" respSample sampleEndpoints
      sampleStore rfl (by decide)⟩

/-- C2: with unprocessed events present, the invocation's trace is the
whole dispatch followed by the marker puts (key `event:<id>`, value the
serialized event, 24-hour expiry); the dispatch segment contains no put;
and the final store is the same whatever the per-endpoint delivery
outcomes are. -/
theorem checkAndNotify_dispatch_then_mark (net : Net) (locale : String → String)
    (nowTs : String) (resp : FetchResponse) (endpoints : List NotificationEndpoint)
    (store : KVStore) (hok : resp.ok = true)
    (hne : unprocessedOf store (filterMapEvents resp.result) ≠ []) :
    (checkAndNotifySecurityEvents net locale nowTs resp endpoints store).1 =
      sendNotificationsBatch net locale nowTs endpoints
        (unprocessedOf store (filterMapEvents resp.result)) ++
      (unprocessedOf store (filterMapEvents resp.result)).map
        (fun e => Act.markPut ("event:" ++ e.id) (serializeEvent e) 86400) ∧
    (∀ a ∈ sendNotificationsBatch net locale nowTs endpoints
        (unprocessedOf store (filterMapEvents resp.result)),
      isMarkPutAct a = false) ∧
    (∀ net' : Net,
      (checkAndNotifySecurityEvents net' locale nowTs resp endpoints store).2 =
        (unprocessedOf store (filterMapEvents resp.result)).foldl
          (fun s e => markEntry e :: s) store) := by
  have hpos : (unprocessedOf store (filterMapEvents resp.result)).length > 0 :=
    List.length_pos.mpr hne
  refine ⟨?_, ?_, ?_⟩
  · rw [checkAndNotify_ok net locale nowTs resp endpoints store hok, if_pos hpos]
  · intro a ha
    exact (sendNotificationsBatch_shape net locale nowTs endpoints _ a ha).2
  · intro net'
    rw [checkAndNotify_ok net' locale nowTs resp endpoints store hok, if_pos hpos]

/-- Witness for C2 at the sample inputs (webhook delivery failing). -/
theorem checkAndNotify_dispatch_then_mark_witness :
    respSample.ok = true ∧
    unprocessedOf sampleStore (filterMapEvents respSample.result) ≠ [] ∧
    ((checkAndNotifySecurityEvents netWebhookDown idLocale "T" respSample
        sampleEndpoints sampleStore).1 =
      sendNotificationsBatch netWebhookDown idLocale "T" sampleEndpoints
        (unprocessedOf sampleStore (filterMapEvents respSample.result)) ++
      (unprocessedOf sampleStore (filterMapEvents respSample.result)).map
        (fun e => Act.markPut ("event:" ++ e.id) (serializeEvent e) 86400) ∧
    (∀ a ∈ sendNotificationsBatch netWebhookDown idLocale "T" sampleEndpoints
        (unprocessedOf sampleStore (filterMapEvents respSample.result)),
      isMarkPutAct a = false) ∧
    (∀ net' : Net,
      (checkAndNotifySecurityEvents net' idLocale "T" respSample sampleEndpoints
          sampleStore).2 =
        (unprocessedOf sampleStore (filterMapEvents respSample.result)).foldl
          (fun s e => markEntry e :: s) sampleStore)) :=
  ⟨rfl, by decide,
    checkAndNotify_dispatch_then_mark netWebhookDown idLocale "T" respSample
      sampleEndpoints sampleStore rfl (by decide)⟩

/-- C4: on a failed fetch the invocation only logs the error, leaving
the store untouched with no send and no put; and for every response the
body either succeeds or throws exactly the fetch error, which the
top-level catch converts into a log. -/
theorem checkAndNotify_never_throws (net : Net) (locale : String → String)
    (nowTs : String) (resp : FetchResponse) (endpoints : List NotificationEndpoint)
    (store : KVStore) (hfail : resp.ok = false) :
    checkAndNotifySecurityEvents net locale nowTs resp endpoints store =
      ([Act.logError ("Error checking security events: " ++
        ("Cloudflare API error: " ++ toString resp.status))], store) ∧
    (∀ resp' : FetchResponse,
      (checkAndNotifyBody net locale nowTs resp' endpoints store).2.2 =
        Except.ok () ∨
      ((checkAndNotifyBody net locale nowTs resp' endpoints store).2.2 =
          Except.error ("Cloudflare API error: " ++ toString resp'.status) ∧
        resp'.ok = false)) ∧
    (∀ (resp' : FetchResponse) (acts : List Act) (store' : KVStore) (e : String),
      checkAndNotifyBody net locale nowTs resp' endpoints store =
        (acts, store', Except.error e) →
      checkAndNotifySecurityEvents net locale nowTs resp' endpoints store =
        (acts ++ [Act.logError ("Error checking security events: " ++ e)], store')) := by
  refine ⟨?_, ?_, ?_⟩
  · unfold checkAndNotifySecurityEvents checkAndNotifyBody fetchSecurityEvents
    rw [hfail]
    simp
  · intro resp'
    by_cases h : resp'.ok
    · left
      unfold checkAndNotifyBody fetchSecurityEvents
      rw [h]
      by_cases hlen :
          (unprocessedOf store (filterMapEvents resp'.result)).length > 0 <;>
        simp [hlen]
    · right
      constructor
      · unfold checkAndNotifyBody fetchSecurityEvents
        rw [if_neg h]
      · exact Bool.not_eq_true _ ▸ (by simpa using h)
  · intro resp' acts store' e hb
    unfold checkAndNotifySecurityEvents
    rw [hb]

/-- Witness for C4 at the failed sample response. -/
theorem checkAndNotify_never_throws_witness :
    respFail.ok = false ∧
    (checkAndNotifySecurityEvents netAllOk idLocale "T" respFail sampleEndpoints
        sampleStore =
      ([Act.logError ("Error checking security events: " ++
        ("Cloudflare API error: " ++ toString respFail.status))], sampleStore) ∧
    (∀ resp' : FetchResponse,
      (checkAndNotifyBody netAllOk idLocale "T" resp' sampleEndpoints sampleStore).2.2 =
        Except.ok () ∨
      ((checkAndNotifyBody netAllOk idLocale "T" resp' sampleEndpoints sampleStore).2.2 =
          Except.error ("Cloudflare API error: " ++ toString resp'.status) ∧
        resp'.ok = false)) ∧
    (∀ (resp' : FetchResponse) (acts : List Act) (store' : KVStore) (e : String),
      checkAndNotifyBody netAllOk idLocale "T" resp' sampleEndpoints sampleStore =
        (acts, store', Except.error e) →
      checkAndNotifySecurityEvents netAllOk idLocale "T" resp' sampleEndpoints
          sampleStore =
        (acts ++ [Act.logError ("Error checking security events: " ++ e)], store'))) :=
  ⟨rfl,
    checkAndNotify_never_throws netAllOk idLocale "T" respFail sampleEndpoints
      sampleStore rfl⟩

/-- C9: on a successful fetch the store is only extended with entries
whose keys had no marker at partition time, all with a 24-hour expiry;
a pre-existing marker entry (its value and its recorded expiry) is
left exactly as it was. -/
theorem checkAndNotify_marker_freshness (net : Net) (locale : String → String)
    (nowTs : String) (resp : FetchResponse) (endpoints : List NotificationEndpoint)
    (store : KVStore) (hok : resp.ok = true) (hwf : ∀ en ∈ store, en.value ≠ "") :
    ∃ newEntries : List KVEntry,
      (checkAndNotifySecurityEvents net locale nowTs resp endpoints store).2 =
        newEntries ++ store ∧
      (∀ en ∈ newEntries, kvGet store en.key = none ∧ en.ttl = 86400) ∧
      (∀ k : String, kvGet store k ≠ none →
        kvGetEntry
          ((checkAndNotifySecurityEvents net locale nowTs resp endpoints store).2) k =
          kvGetEntry store k) := by
  rw [checkAndNotify_ok net locale nowTs resp endpoints store hok]
  by_cases h : (unprocessedOf store (filterMapEvents resp.result)).length > 0
  · rw [if_pos h]
    refine ⟨((unprocessedOf store (filterMapEvents resp.result)).map markEntry).reverse,
      ?_, ?_, ?_⟩
    · exact foldl_cons_map markEntry _ store
    · intro en hen
      rcases List.mem_map.mp (List.mem_reverse.mp hen) with ⟨e, he, rfl⟩
      have hfalsy : jsFalsy (kvGet store ("event:" ++ e.id)) = true :=
        (List.mem_filter.mp he).2
      rw [jsFalsy_kvGet store hwf] at hfalsy
      exact ⟨Option.isNone_iff_eq_none.mp hfalsy, rfl⟩
    · intro k hk
      rw [foldl_cons_map markEntry _ store]
      unfold kvGetEntry
      apply find?_append_of_eq_none
      apply List.find?_eq_none.mpr
      intro en hen
      rcases List.mem_map.mp (List.mem_reverse.mp hen) with ⟨e, he, rfl⟩
      have hfalsy : jsFalsy (kvGet store ("event:" ++ e.id)) = true :=
        (List.mem_filter.mp he).2
      rw [jsFalsy_kvGet store hwf] at hfalsy
      have hnone : kvGet store ((markEntry e).key) = none :=
        Option.isNone_iff_eq_none.mp hfalsy
      intro hkey
      apply hk
      rw [← (by simpa using hkey : (markEntry e).key = k)]
      exact hnone
  · rw [if_neg h]
    exact ⟨[], rfl, by simp, fun k _ => rfl⟩

/-- Witness for C9 at the sample inputs. -/
theorem checkAndNotify_marker_freshness_witness :
    respSample.ok = true ∧ (∀ en ∈ sampleStore, en.value ≠ "") ∧
    (∃ newEntries : List KVEntry,
      (checkAndNotifySecurityEvents netAllOk idLocale "T" respSample sampleEndpoints
          sampleStore).2 = newEntries ++ sampleStore ∧
      (∀ en ∈ newEntries, kvGet sampleStore en.key = none ∧ en.ttl = 86400) ∧
      (∀ k : String, kvGet sampleStore k ≠ none →
        kvGetEntry ((checkAndNotifySecurityEvents netAllOk idLocale "T" respSample
            sampleEndpoints sampleStore).2) k =
          kvGetEntry sampleStore k)) :=
  ⟨rfl, by decide,
    checkAndNotify_marker_freshness netAllOk idLocale "T" respSample sampleEndpoints
      sampleStore rfl (by decide)⟩

end SecNotif
